import Mathlib

/-!
Verification of the results-presenter logic of
`eco-pack-ai/frontend/static/js/app.js`.

The JavaScript source is shallowly embedded: JS numbers are modelled as
rationals (`ℚ`), a possibly-NaN parse result as `Option ℚ` (`none` = NaN),
a possibly-absent list as `Option (List _)`, and every DOM/alert side effect
as an explicit value of an outcome type.
-/

/-- A recommendation record as received from the backend
(fields as read by `app.js`). -/
structure RecommendationRecord where
  material_name : String
  material_type : String
  suitability_score : ℚ
  predicted_cost_inr : ℚ
  predicted_co2_kg : ℚ
  eco_score : ℚ
deriving DecidableEq, Inhabited

/-- Embedding of `l.reduce((a, b) => f b < f a ? b : a)` on the list `a :: l`:
JS `Array.prototype.reduce` without an initial value starts from the first
element and folds the rest from the left.  This is the shape used at
app.js:137 and app.js:140. -/
def jsReduce {α : Type} (f : α → ℚ) (a : α) (l : List α) : α :=
  l.foldl (fun x b => if f b < f x then b else x) a

/-- Tests whether `x` has a minimal key among the members of `l`. -/
def minimalIn {α : Type} (f : α → ℚ) (l : List α) (x : α) : Bool :=
  l.all fun s => f x ≤ f s

/-- Modelled from the spec: "a single linear pass with running minimum
tracking", ties resolved by strict `<` so the earlier element is kept. -/
def runningMinPass {α : Type} (f : α → ℚ) (best : α) : List α → α
  | [] => best
  | r :: rest => runningMinPass f (if f r < f best then r else best) rest

/-- Exact rational multiplication, written through the smart constructor
`mkRat` so that the kernel can evaluate it on closed inputs (the library's
`Rat.mul` is `@[irreducible]`).  `qmul_eq_mul` below shows it is the ordinary
multiplication of `ℚ`. -/
def qmul (a b : ℚ) : ℚ :=
  mkRat (a.num * b.num) (a.den * b.den)

/-- The integer `⌊x · 10^d + 1/2⌋`, computed over the numerator and denominator with
integer floor division so that the kernel can evaluate it
(`halfUpScaled_eq_floor` below proves it is that floor). -/
def halfUpScaled (x : ℚ) (d : Nat) : ℤ :=
  (2 * x.num * 10 ^ d + x.den).fdiv (2 * x.den)

/-- Left-pad a digit string with zeros to length `d`. -/
def padZeros (d : Nat) (s : String) : String :=
  String.mk (List.replicate (d - s.length) '0') ++ s

/-- Print the integer `n` as a decimal string with the last `d` digits after
the point (`renderScaled 19950 2 = "199.50"`). -/
def renderScaled (n : ℤ) (d : Nat) : String :=
  let sign := if n < 0 then "-" else ""
  let m := n.natAbs
  if d = 0 then
    sign ++ toString m
  else
    sign ++ toString (m / 10 ^ d) ++ "." ++ padZeros d (toString (m % 10 ^ d))

/-- JS `Number.prototype.toFixed(d)`, modelled over `ℚ` after the ECMAScript
algorithm: strip the sign, pick the integer `n` with `n / 10^d` closest to the
value (ties to the larger `n`, i.e. `n = ⌊x·10^d + 1/2⌋`, see
`halfUpScaled_eq_floor`), and print it with `d` digits after the point. -/
def toFixed (x : ℚ) (d : Nat) : String :=
  if x < 0 then "-" ++ renderScaled (halfUpScaled (-x) d) d
  else renderScaled (halfUpScaled x d) d

/-- One rendered material card (app.js:118-134): the strings interpolated
into the card template, plus the `best` CSS-class flag given to index 0. -/
structure CardModel where
  name : String
  suitability : String
  cost : String
  co2 : String
  ecoScore : String
  isBest : Bool
deriving DecidableEq, Inhabited

/-- The formatted card for record `r` at 0-based index `i` (app.js:118-131). -/
def mkCard (i : Nat) (r : RecommendationRecord) : CardModel :=
  { name := r.material_name
    suitability := toFixed (qmul r.suitability_score 100) 1 ++ "%"
    cost := "₹" ++ toFixed r.predicted_cost_inr 2
    co2 := toFixed r.predicted_co2_kg 4 ++ " kg"
    ecoScore := toFixed r.eco_score 3
    isBest := i == 0 }

/-- One row of the summary table (app.js:243-253): the strings interpolated
into the row template, including the 1-based rank cell. -/
structure TableRow where
  name : String
  typeTag : String
  suitability : String
  cost : String
  co2 : String
  ecoScore : String
  rank : String
deriving DecidableEq, Inhabited

/-- The formatted table row for record `r` at 0-based index `i`
(app.js:243-253); the rank cell shows `i + 1`. -/
def mkRow (i : Nat) (r : RecommendationRecord) : TableRow :=
  { name := r.material_name
    typeTag := r.material_type
    suitability := toFixed (qmul r.suitability_score 100) 1 ++ "%"
    cost := "₹" ++ toFixed r.predicted_cost_inr 2
    co2 := toFixed r.predicted_co2_kg 4 ++ " kg"
    ecoScore := toFixed r.eco_score 3
    rank := toString (i + 1) }

/-- Loop `recs.forEach((r, i) => ...)` of `buildTable`, carried out from start
index `i`. -/
def buildRows (i : Nat) : List RecommendationRecord → List TableRow
  | [] => []
  | r :: rest => mkRow i r :: buildRows (i + 1) rest

/-- Embedding of `buildTable` (app.js:239-256): one formatted row per record, in input
order, with 1-based ranks. -/
def buildTable (recs : List RecommendationRecord) : List TableRow :=
  buildRows 0 recs

/-- Loop `recs.forEach((r, i) => ...)` of `displayResults`, from start index `i`. -/
def buildCards (i : Nat) : List RecommendationRecord → List CardModel
  | [] => []
  | r :: rest => mkCard i r :: buildCards (i + 1) rest

/-- The analytics grid data (app.js:137-162): the three selected records. -/
structure Analytics where
  lowestCost : RecommendationRecord
  lowestCO2 : RecommendationRecord
  best : RecommendationRecord
deriving DecidableEq, Inhabited

/-- The full render model produced by a successful `displayResults` call:
cards grid, analytics grid, chart inputs (app.js:171-237) and summary table. -/
structure RenderModel where
  cards : List CardModel
  analytics : Analytics
  chartLabels : List String
  chartCostData : List ℚ
  chartCO2Data : List ℚ
  table : List TableRow
deriving DecidableEq, Inhabited

/-- What `displayResults` does: either only a warning alert (empty/absent
input, app.js:110-113) or a full render. -/
inductive DisplayOutcome where
  | emptyWarn (alertType msg : String)
  | rendered (m : RenderModel)
deriving DecidableEq, Inhabited

/-- The render model built by `displayResults` for the non-empty list
`r0 :: rest` (app.js:115-165): cards, the two reduce-based extrema plus
`recs[0]` as "best overall", the chart inputs, and the summary table. -/
def renderOf (r0 : RecommendationRecord) (rest : List RecommendationRecord) : RenderModel :=
  { cards := buildCards 0 (r0 :: rest)
    analytics :=
      { lowestCost := jsReduce (fun r => r.predicted_cost_inr) r0 rest
        lowestCO2 := jsReduce (fun r => r.predicted_co2_kg) r0 rest
        best := r0 }
    chartLabels := (r0 :: rest).map (fun r => r.material_name)
    chartCostData := (r0 :: rest).map (fun r => r.predicted_cost_inr)
    chartCO2Data := (r0 :: rest).map (fun r => r.predicted_co2_kg)
    table := buildTable (r0 :: rest) }

/-- Embedding of `displayResults` (app.js:109-169).  The argument is the
`data.recommendations` field, which may be absent (`none`).  JS
`!recs || !recs.length` is true exactly for `none` and `some []`. -/
def displayResults (recs : Option (List RecommendationRecord)) : DisplayOutcome :=
  match recs with
  | none => .emptyWarn "warning" "No recommendations found."
  | some [] => .emptyWarn "warning" "No recommendations found."
  | some (r0 :: rest) => .rendered (renderOf r0 rest)

/-- JS `String.prototype.trim`: drop leading and trailing whitespace.
Modelled over the character list, since the library's `String.trim` is not
kernel-reducible. -/
def jsTrim (s : String) : String :=
  String.mk (((s.data.dropWhile Char.isWhitespace).reverse.dropWhile
    Char.isWhitespace).reverse)

/-- The form state read by `runRecommendation` (app.js:45-50).  Parse results
carry `none` for JS `NaN` (`parseFloat`/`parseInt` of unparsable text). -/
structure FormInputs where
  categoryRaw : String
  weightParsed : Option ℚ
  fragility : String
  budgetTrimmed : String
  budgetParsed : Option ℚ
  currentMaterial : String
  topNParsed : Option ℤ
deriving DecidableEq, Inhabited

/-- The request body assembled at app.js:63-69.  `budget_limit` is
`none` for JS `null` and `some none` for `NaN` (empty vs. unparsable
budget field). -/
structure Payload where
  category : String
  weight : ℚ
  top_n : ℤ
  fragility_override : String
  budget_limit : Option (Option ℚ)
deriving DecidableEq, Inhabited

/-- Embedding of `[3, 5, 10].includes(topNRaw) ? topNRaw : 5` (app.js:61);
`includes(NaN)` is `false` for an integer list, so `none` also falls back
to 5. -/
def chooseTopN (raw : Option ℤ) : ℤ :=
  match raw with
  | some n => if ([3, 5, 10] : List ℤ).contains n then n else 5
  | none => 5

/-- What `runRecommendation` does before any network call: either a warning
alert and an early return, or a request submission with the given payload
(app.js:41-77). -/
inductive RunOutcome where
  | warn (msg : String)
  | request (p : Payload)
deriving DecidableEq, Inhabited

/-- The validation and payload assembly of `runRecommendation`
(app.js:45-77): category (trimmed) must be non-empty, the parsed weight must
be a number `> 0`; only then is the request sent. -/
def runRecommendation (inp : FormInputs) : RunOutcome :=
  let category := jsTrim inp.categoryRaw
  if category = "" then
    .warn "Please select a product category."
  else
    match inp.weightParsed with
    | none => .warn "Please enter a valid product weight."
    | some w =>
      if w ≤ 0 then
        .warn "Please enter a valid product weight."
      else
        .request
          { category := category
            weight := w
            top_n := chooseTopN inp.topNParsed
            fragility_override := inp.fragility
            budget_limit :=
              if inp.budgetTrimmed = "" then none else some inp.budgetParsed }

/-- A fetch/JSON round trip: either a decoded body or a transport error
(network failure or JSON failure), whose message feeds `err.message`. -/
inductive FetchResult (α : Type) where
  | ok (data : α)
  | transportError (msg : String)
deriving DecidableEq, Inhabited

/-- Body of the `/api/categories` and `/api/materials` responses. -/
structure ListResponse where
  status : String
  items : List String
deriving DecidableEq, Inhabited

/-- What a selector loader does: the warning alert from the `.catch`, or the
option list appended to the selector. -/
inductive LoadOutcome where
  | warnAlert (msg : String)
  | populated (items : List String)
deriving DecidableEq, Inhabited

/-- Embedding of `loadCategories` (app.js:9-23): non-success status throws, and every
throw or transport error lands in `.catch`, which warns. -/
def loadCategories (res : FetchResult ListResponse) : LoadOutcome :=
  match res with
  | .transportError _ => .warnAlert "Unable to load product categories."
  | .ok data =>
    if data.status ≠ "success" then .warnAlert "Unable to load product categories."
    else .populated data.items

/-- Embedding of `loadMaterials` (app.js:25-39), same shape as `loadCategories`. -/
def loadMaterials (res : FetchResult ListResponse) : LoadOutcome :=
  match res with
  | .transportError _ => .warnAlert "Unable to load materials list."
  | .ok data =>
    if data.status ≠ "success" then .warnAlert "Unable to load materials list."
    else .populated data.items

/-- The comparison record read by `displaySavings` (app.js:258-298). -/
structure ComparisonRecord where
  current_material : String
  recommended_material : String
  current_cost_inr : ℚ
  recommended_cost_inr : ℚ
  current_co2_kg : ℚ
  recommended_co2_kg : ℚ
  cost_difference_inr : ℚ
  co2_savings_kg : ℚ
  co2_reduction_percent : ℚ
  recommended_eco_score : ℚ
deriving DecidableEq, Inhabited

/-- The savings panel produced by `displaySavings` (app.js:258-298): the
formatted strings interpolated into the two grids; all values are taken from
the comparison record as provided, with no further derivation. -/
structure SavingsModel where
  co2ReductionPercent : String
  co2SavingsKg : String
  costSavings : String
  ecoScore : String
  currentMaterial : String
  currentCost : String
  currentCO2 : String
  recommendedMaterial : String
  recommendedCost : String
  recommendedCO2 : String
deriving DecidableEq, Inhabited

/-- Embedding of `displaySavings` (app.js:258-298). -/
def displaySavings (cmp : ComparisonRecord) : SavingsModel :=
  { co2ReductionPercent := toFixed cmp.co2_reduction_percent 1 ++ "%"
    co2SavingsKg := toFixed cmp.co2_savings_kg 4 ++ " kg saved"
    costSavings := "₹" ++ toFixed cmp.cost_difference_inr 2
    ecoScore := toFixed cmp.recommended_eco_score 3
    currentMaterial := cmp.current_material
    currentCost := "₹" ++ toFixed cmp.current_cost_inr 2
    currentCO2 := toFixed cmp.current_co2_kg 4 ++ " kg"
    recommendedMaterial := cmp.recommended_material
    recommendedCost := "₹" ++ toFixed cmp.recommended_cost_inr 2
    recommendedCO2 := toFixed cmp.recommended_co2_kg 4 ++ " kg" }

/-- Body of the `/api/recommend` response; `recommendations` may be absent. -/
structure RecResponse where
  status : String
  recommendations : Option (List RecommendationRecord)
deriving DecidableEq, Inhabited

/-- Body of the `/api/compare` response. -/
structure CmpResponse where
  status : String
  comparison : ComparisonRecord
deriving DecidableEq, Inhabited

/-- Observable outcome of the promise chain at app.js:73-106: the alerts
shown (in order, `(type, message)`), the render model if `displayResults`
rendered, and the savings panel if `displaySavings` ran. -/
structure FlowOutcome where
  alerts : List (String × String)
  results : Option RenderModel
  savings : Option SavingsModel
deriving DecidableEq, Inhabited

/-- The recommendation promise chain (app.js:73-106).  The first fetch
resolves as `recRes`; when it succeeds with `status === "success"`,
`displayResults` runs, and if `currentMaterial` is non-empty a compare fetch
resolving as `cmpRes` follows.  A non-success recommendation status throws
`Error("Recommendation failed")`; any throw or transport error reaches
`.catch`, which shows `("error", err.message || "Something went wrong.")`.
A non-success compare status is simply skipped (app.js:95-97). -/
def recommendFlow (recRes : FetchResult RecResponse) (currentMaterial : String)
    (cmpRes : FetchResult CmpResponse) : FlowOutcome :=
  match recRes with
  | .transportError msg =>
    { alerts := [("error", if msg = "" then "Something went wrong." else msg)]
      results := none
      savings := none }
  | .ok data =>
    if data.status ≠ "success" then
      { alerts := [("error", "Recommendation failed")]
        results := none
        savings := none }
    else
      let base :=
        match displayResults data.recommendations with
        | .emptyWarn t m => { alerts := [(t, m)], results := none, savings := none : FlowOutcome }
        | .rendered m => { alerts := [], results := some m, savings := none }
      if currentMaterial = "" then
        base
      else
        match cmpRes with
        | .transportError msg =>
          { base with
            alerts := base.alerts ++ [("error", if msg = "" then "Something went wrong." else msg)] }
        | .ok cmp =>
          if cmp.status = "success" then
            { base with savings := some (displaySavings cmp.comparison) }
          else
            base

/-- Sample record: cheap to make but high CO₂. -/
def recPlastic : RecommendationRecord :=
  { material_name := "Plastic"
    material_type := "synthetic"
    suitability_score := mkRat 3 10
    predicted_cost_inr := 5
    predicted_co2_kg := 2
    eco_score := mkRat 3 10 }

/-- Sample record: higher cost, low CO₂, best overall. -/
def recBamboo : RecommendationRecord :=
  { material_name := "Bamboo"
    material_type := "organic"
    suitability_score := mkRat 876 1000
    predicted_cost_inr := 10
    predicted_co2_kg := mkRat 1 2
    eco_score := mkRat 9 10 }

/-- Sample record list, ranked best-first. -/
def sampleRecs : List RecommendationRecord := [recBamboo, recPlastic]

/-- The render model of a successful `displayResults` call (the `rendered`
payload, or a default on the empty input where none is produced). -/
def modelOf (recs : List RecommendationRecord) : RenderModel :=
  match displayResults (some recs) with
  | .rendered m => m
  | .emptyWarn _ _ => default

/-- Sample comparison record for the savings panel. -/
def sampleCmp : ComparisonRecord :=
  { current_material := "Plastic"
    recommended_material := "Bamboo"
    current_cost_inr := 5
    recommended_cost_inr := 10
    current_co2_kg := 2
    recommended_co2_kg := mkRat 1 2
    cost_difference_inr := -5
    co2_savings_kg := mkRat 3 2
    co2_reduction_percent := 75
    recommended_eco_score := mkRat 9 10 }

/-- Record holding exactly the formatting examples of the specification:
suitability 0.876, cost 199.5, emissions 0.01234, eco score 0.5. -/
def recFormatSample : RecommendationRecord :=
  { material_name := "Sample"
    material_type := "mixed"
    suitability_score := mkRat 876 1000
    predicted_cost_inr := mkRat 1995 10
    predicted_co2_kg := mkRat 1234 100000
    eco_score := mkRat 1 2 }

theorem jsReduce_nil {α : Type} (f : α → ℚ) (a : α) : jsReduce f a [] = a := rfl

theorem jsReduce_cons {α : Type} (f : α → ℚ) (a b : α) (l : List α) :
    jsReduce f a (b :: l) = jsReduce f (if f b < f a then b else a) l := rfl

/-- The fold result is one of the scanned elements. -/
theorem jsReduce_mem {α : Type} (f : α → ℚ) (a : α) (l : List α) :
    jsReduce f a l ∈ a :: l := by
  induction l generalizing a with
  | nil => simp [jsReduce]
  | cons b l ih =>
    rw [jsReduce_cons]
    split
    · exact List.mem_cons_of_mem _ (ih b)
    · rcases List.mem_cons.mp (ih a) with h | h
      · simp [h]
      · exact List.mem_cons_of_mem _ (List.mem_cons_of_mem _ h)

/-- The fold result's key is a lower bound for the keys of everything scanned. -/
theorem jsReduce_le {α : Type} (f : α → ℚ) (a : α) (l : List α) :
    ∀ x ∈ a :: l, f (jsReduce f a l) ≤ f x := by
  induction l generalizing a with
  | nil => simp [jsReduce]
  | cons b l ih =>
    intro x hx
    rw [jsReduce_cons]
    have hle : f (jsReduce f (if f b < f a then b else a) l) ≤ f (if f b < f a then b else a) :=
      ih (if f b < f a then b else a) _ (List.mem_cons_self _ _)
    rcases List.mem_cons.mp hx with rfl | hx'
    · refine hle.trans ?_
      split <;> simp_all [le_of_lt]
    · rcases List.mem_cons.mp hx' with rfl | hx''
      · refine hle.trans ?_
        split <;> simp_all [le_of_not_lt]
      · exact ih (if f b < f a then b else a) x (List.mem_cons_of_mem _ hx'')

/-- Unfolding view of the fold: on `a :: b :: l` the result is `a` exactly
when `a`'s key is ≤ the best key of the rest (strict `<` in the step keeps
the earlier element on a tie). -/
theorem jsReduce_cons_view {α : Type} (f : α → ℚ) (a b : α) (l : List α) :
    jsReduce f a (b :: l) =
      if f a ≤ f (jsReduce f b l) then a else jsReduce f b l := by
  induction l generalizing a b with
  | nil =>
    simp only [jsReduce_cons, jsReduce_nil]
    rcases lt_or_le (f b) (f a) with h | h
    · simp [h, not_le.mpr h]
    · simp [not_lt.mpr h, h]
  | cons c l ih =>
    rw [jsReduce_cons]
    rcases lt_or_le (f b) (f a) with h | h
    · rw [if_pos h]
      have hlow : f (jsReduce f b (c :: l)) ≤ f b :=
        jsReduce_le f b (c :: l) b (List.mem_cons_self _ _)
      rw [if_neg (not_le.mpr (lt_of_le_of_lt hlow h))]
    · rw [if_neg (not_lt.mpr h), ih a c, ih b c]
      rcases le_or_lt (f b) (f (jsReduce f c l)) with hb | hb
      · rw [if_pos hb, if_pos (h.trans hb), if_pos h]
      · rw [if_neg (not_le.mpr hb)]

/-- When `p` and `q` agree on the members of `l`, `find?` agrees too. -/
theorem find_congr_mem {α : Type} (p q : α → Bool) (l : List α)
    (h : ∀ x ∈ l, p x = q x) : l.find? p = l.find? q := by
  induction l with
  | nil => rfl
  | cons a l ih =>
    have ha := h a (List.mem_cons_self _ _)
    rw [List.find?_cons, List.find?_cons, ha]
    split
    · rfl
    · exact ih fun x hx => h x (List.mem_cons_of_mem _ hx)

/-- The JS reduce with strict `<` returns the first-encountered minimal
element: it equals a left-to-right `find?` for an element whose key is a
lower bound of the whole list. -/
theorem jsReduce_eq_leftmost_minimal {α : Type} (f : α → ℚ) (a : α) (l : List α) :
    (a :: l).find? (minimalIn f (a :: l)) = some (jsReduce f a l) := by
  induction l generalizing a with
  | nil =>
    rw [List.find?_cons_of_pos _ (by simp [minimalIn])]
    rfl
  | cons b l ih =>
    rw [jsReduce_cons_view]
    rcases le_or_lt (f a) (f (jsReduce f b l)) with h | h
    · rw [if_pos h]
      refine List.find?_cons_of_pos _ ?_
      simp only [minimalIn, List.all_eq_true, decide_eq_true_eq]
      intro s hs
      rcases List.mem_cons.mp hs with rfl | hs'
      · exact le_refl _
      · exact h.trans (jsReduce_le f b l s hs')
    · have hnot : ¬ minimalIn f (a :: b :: l) a = true := by
        simp only [minimalIn, List.all_eq_true, decide_eq_true_eq]
        push_neg
        exact ⟨jsReduce f b l, List.mem_cons_of_mem _ (jsReduce_mem f b l), h⟩
      rw [if_neg (not_le.mpr h), List.find?_cons_of_neg _ hnot,
        find_congr_mem (minimalIn f (a :: b :: l)) (minimalIn f (b :: l))]
      · exact ih b
      · intro x hx
        rw [Bool.eq_iff_iff]
        simp only [minimalIn, List.all_cons, Bool.and_eq_true, decide_eq_true_eq]
        constructor
        · rintro ⟨-, h2⟩
          exact h2
        · rintro ⟨hb2, hl2⟩
          refine ⟨?_, hb2, hl2⟩
          have hxm : f x ≤ f (jsReduce f b l) := by
            rcases List.mem_cons.mp (jsReduce_mem f b l) with hm | hm
            · rw [hm]; exact hb2
            · exact decide_eq_true_eq.mp (List.all_eq_true.mp hl2 _ hm)
          exact hxm.trans h.le

/-- The reduce-based selection coincides with the running-minimum pass. -/
theorem jsReduce_eq_runningMinPass {α : Type} (f : α → ℚ) (a : α) (l : List α) :
    jsReduce f a l = runningMinPass f a l := by
  induction l generalizing a with
  | nil => rfl
  | cons b l ih => rw [jsReduce_cons, runningMinPass, ih]

theorem qmul_eq_mul (a b : ℚ) : qmul a b = a * b :=
  (Rat.mul_eq_mkRat a b).symm

theorem halfUpScaled_eq_floor (x : ℚ) (d : Nat) :
    halfUpScaled x d = ⌊x * 10 ^ d + 1 / 2⌋ := by
  have hden0 : ((x.den : ℚ)) ≠ 0 := Nat.cast_ne_zero.mpr x.den_nz
  have hmul : x * (x.den : ℚ) = (x.num : ℚ) := by
    nth_rewrite 1 [← Rat.num_div_den x]
    exact div_mul_cancel₀ _ hden0
  have h2 : ((2 * x.den : ℕ) : ℚ) ≠ 0 :=
    Nat.cast_ne_zero.mpr (Nat.mul_ne_zero (by decide) x.den_nz)
  have hx : x * 10 ^ d + 1 / 2 =
      ((2 * x.num * 10 ^ d + (x.den : ℤ) : ℤ) : ℚ) / ((2 * x.den : ℕ) : ℚ) := by
    rw [eq_div_iff h2]
    push_cast
    linear_combination (2 * (10 : ℚ) ^ d) * hmul
  rw [halfUpScaled, hx, Rat.floor_intCast_div_natCast,
    Int.fdiv_eq_ediv _ (by positivity)]
  norm_cast

/-- Inversion: a rendered outcome comes from a non-empty list, and the model
is `renderOf` of its head and tail. -/
theorem displayResults_rendered_inv (recs : List RecommendationRecord)
    (m : RenderModel) (hm : displayResults (some recs) = .rendered m) :
    ∃ r0 rest, recs = r0 :: rest ∧ m = renderOf r0 rest := by
  cases recs with
  | nil => simp [displayResults] at hm
  | cons r0 rest =>
    refine ⟨r0, rest, rfl, ?_⟩
    simpa [displayResults] using hm.symm

/-- C1: for every non-empty record list, the lowest-cost selection of
`displayResults` has `predicted_cost_inr` ≤ that of every record in the
list, and independently the lowest-emissions selection has
`predicted_co2_kg` ≤ that of every record in the list. -/
theorem claim_C1_extrema_are_lower_bounds (recs : List RecommendationRecord)
    (m : RenderModel) (hm : displayResults (some recs) = .rendered m) :
    ∀ r ∈ recs,
      m.analytics.lowestCost.predicted_cost_inr ≤ r.predicted_cost_inr ∧
      m.analytics.lowestCO2.predicted_co2_kg ≤ r.predicted_co2_kg := by
  obtain ⟨r0, rest, rfl, rfl⟩ := displayResults_rendered_inv _ _ hm
  intro r hr
  exact ⟨jsReduce_le (fun r => r.predicted_cost_inr) r0 rest r hr,
    jsReduce_le (fun r => r.predicted_co2_kg) r0 rest r hr⟩

/-- C1 witness at the sample list. -/
theorem claim_C1_witness :
    (modelOf sampleRecs).analytics.lowestCost.predicted_cost_inr ≤
        recBamboo.predicted_cost_inr ∧
    (modelOf sampleRecs).analytics.lowestCO2.predicted_co2_kg ≤
        recBamboo.predicted_co2_kg :=
  claim_C1_extrema_are_lower_bounds sampleRecs (modelOf sampleRecs) rfl
    recBamboo (by decide)

/-- C2: the reduce-based selection (accumulator kept unless the next record
is strictly smaller) is the first-encountered minimal element — the leftmost
list member whose key is a lower bound for the whole list — and coincides
with a single left-to-right running-minimum pass; both for cost and CO₂. -/
theorem claim_C2_reduce_is_stable_leftmost_min (recs : List RecommendationRecord)
    (m : RenderModel) (hm : displayResults (some recs) = .rendered m) :
    recs.find? (minimalIn (fun r => r.predicted_cost_inr) recs) =
        some m.analytics.lowestCost ∧
    recs.find? (minimalIn (fun r => r.predicted_co2_kg) recs) =
        some m.analytics.lowestCO2 ∧
    ∀ r0 rest, recs = r0 :: rest →
      m.analytics.lowestCost = runningMinPass (fun r => r.predicted_cost_inr) r0 rest ∧
      m.analytics.lowestCO2 = runningMinPass (fun r => r.predicted_co2_kg) r0 rest := by
  obtain ⟨r0, rest, rfl, rfl⟩ := displayResults_rendered_inv _ _ hm
  refine ⟨jsReduce_eq_leftmost_minimal _ r0 rest,
    jsReduce_eq_leftmost_minimal _ r0 rest, ?_⟩
  rintro r0' rest' heq
  obtain ⟨rfl, rfl⟩ : r0 = r0' ∧ rest = rest' := by
    constructor <;> injection heq
  exact ⟨jsReduce_eq_runningMinPass _ r0 rest, jsReduce_eq_runningMinPass _ r0 rest⟩

/-- C2 witness at the sample list. -/
theorem claim_C2_witness :
    sampleRecs.find? (minimalIn (fun r => r.predicted_cost_inr) sampleRecs) =
        some (modelOf sampleRecs).analytics.lowestCost ∧
    (modelOf sampleRecs).analytics.lowestCost =
        runningMinPass (fun r => r.predicted_cost_inr) recBamboo [recPlastic] :=
  ⟨(claim_C2_reduce_is_stable_leftmost_min sampleRecs (modelOf sampleRecs) rfl).1,
    (((claim_C2_reduce_is_stable_leftmost_min sampleRecs (modelOf sampleRecs) rfl).2.2)
      recBamboo [recPlastic] rfl).1⟩

/-- C3: the "best overall" record of `displayResults` is the first element
of the input list, whatever the other records' cost and emission values. -/
theorem claim_C3_best_is_first (recs : List RecommendationRecord)
    (m : RenderModel) (hm : displayResults (some recs) = .rendered m) :
    recs.head? = some m.analytics.best := by
  obtain ⟨r0, rest, rfl, rfl⟩ := displayResults_rendered_inv _ _ hm
  rfl

/-- C3 witness at the sample list (Bamboo is first though Plastic is
cheaper). -/
theorem claim_C3_witness : sampleRecs.head? = some (modelOf sampleRecs).analytics.best :=
  claim_C3_best_is_first sampleRecs (modelOf sampleRecs) rfl

/-- C4: an empty or absent record list makes `displayResults` signal only
the user-visible warning "No recommendations found." — no render model is
produced, so no cards, analytics, chart, or table rendering occurs. -/
theorem claim_C4_empty_input_warns (o : Option (List RecommendationRecord))
    (h : o = none ∨ o = some []) :
    displayResults o = .emptyWarn "warning" "No recommendations found." := by
  rcases h with rfl | rfl <;> rfl

/-- C4 witness at the absent input. -/
theorem claim_C4_witness :
    displayResults none = .emptyWarn "warning" "No recommendations found." :=
  claim_C4_empty_input_warns none (Or.inl rfl)

/-- The rank cell of `buildRows` starting at `k` is `k + i + 1` at offset `i`. -/
theorem buildRows_rank (l : List RecommendationRecord) :
    ∀ k i row, (buildRows k l)[i]? = some row → row.rank = toString (k + i + 1) := by
  induction l with
  | nil =>
    intro k i row h
    simp [buildRows] at h
  | cons r rest ih =>
    intro k i row h
    cases i with
    | zero =>
      rw [buildRows] at h
      simp only [List.getElem?_cons_zero, Option.some.injEq] at h
      rw [← h]
      rfl
    | succ i =>
      rw [buildRows] at h
      simp only [List.getElem?_cons_succ] at h
      rw [ih (k + 1) i row h]
      congr 1
      omega

/-- C5: the rank shown by `buildTable` at 0-indexed position `i` is the
string `i + 1` — ranks are 1-based positions in the caller-supplied order. -/
theorem claim_C5_rank_is_position (recs : List RecommendationRecord)
    (i : Nat) (row : TableRow) (h : (buildTable recs)[i]? = some row) :
    row.rank = toString (i + 1) := by
  rw [buildRows_rank recs 0 i row h]
  congr 1
  omega

/-- C5 witness at the sample list: the second row is ranked "2". -/
theorem claim_C5_witness : (mkRow 1 recPlastic).rank = toString (1 + 1) :=
  claim_C5_rank_is_position sampleRecs 1 (mkRow 1 recPlastic) (by decide)

/-- C10: the lowest-cost and lowest-emissions selections are themselves
records of the input list, never synthesised or field-wise combined. -/
theorem claim_C10_extrema_are_members (recs : List RecommendationRecord)
    (m : RenderModel) (hm : displayResults (some recs) = .rendered m) :
    m.analytics.lowestCost ∈ recs ∧ m.analytics.lowestCO2 ∈ recs := by
  obtain ⟨r0, rest, rfl, rfl⟩ := displayResults_rendered_inv _ _ hm
  simp only [renderOf]
  exact ⟨jsReduce_mem (fun r => r.predicted_cost_inr) r0 rest,
    jsReduce_mem (fun r => r.predicted_co2_kg) r0 rest⟩

/-- C10 witness at the sample list. -/
theorem claim_C10_witness :
    (modelOf sampleRecs).analytics.lowestCost ∈ sampleRecs ∧
    (modelOf sampleRecs).analytics.lowestCO2 ∈ sampleRecs :=
  claim_C10_extrema_are_members sampleRecs (modelOf sampleRecs) rfl

/-- For a non-negative value, `toFixed` prints exactly the half-up rounded
scaling `⌊x · 10^d + 1/2⌋` with `d` digits after the point. -/
theorem toFixed_nonneg (x : ℚ) (d : Nat) (hx : 0 ≤ x) :
    toFixed x d = renderScaled ⌊x * 10 ^ d + 1 / 2⌋ d := by
  rw [toFixed, if_neg (not_lt.mpr hx), halfUpScaled_eq_floor]

/-- C6: every rendered line formats suitability as a half-up rounded
percentage with one decimal place, cost with two, emissions with four and
eco score with three; the card shows the same strings as the table row; and
on the specification's examples this yields "87.6%", "₹199.50", "0.0123 kg"
and "0.500". -/
theorem claim_C6_formatting (i : Nat) (r : RecommendationRecord)
    (hs : 0 ≤ r.suitability_score) (hc : 0 ≤ r.predicted_cost_inr)
    (he : 0 ≤ r.predicted_co2_kg) (hg : 0 ≤ r.eco_score) :
    (mkRow i r).suitability =
        renderScaled ⌊r.suitability_score * 100 * 10 ^ 1 + 1 / 2⌋ 1 ++ "%" ∧
    (mkRow i r).cost = "₹" ++ renderScaled ⌊r.predicted_cost_inr * 10 ^ 2 + 1 / 2⌋ 2 ∧
    (mkRow i r).co2 = renderScaled ⌊r.predicted_co2_kg * 10 ^ 4 + 1 / 2⌋ 4 ++ " kg" ∧
    (mkRow i r).ecoScore = renderScaled ⌊r.eco_score * 10 ^ 3 + 1 / 2⌋ 3 ∧
    mkCard i r =
      { name := r.material_name
        suitability := (mkRow i r).suitability
        cost := (mkRow i r).cost
        co2 := (mkRow i r).co2
        ecoScore := (mkRow i r).ecoScore
        isBest := i == 0 } ∧
    mkRow 0 recFormatSample =
      { name := "Sample"
        typeTag := "mixed"
        suitability := "87.6%"
        cost := "₹199.50"
        co2 := "0.0123 kg"
        ecoScore := "0.500"
        rank := "1" } := by
  have hs' : (0 : ℚ) ≤ qmul r.suitability_score 100 := by
    rw [qmul_eq_mul]
    positivity
  refine ⟨?_, ?_, ?_, ?_, rfl, by decide⟩
  · rw [mkRow]
    rw [toFixed_nonneg _ _ hs', qmul_eq_mul]
  · rw [mkRow]
    rw [toFixed_nonneg _ _ hc]
  · rw [mkRow]
    rw [toFixed_nonneg _ _ he]
  · rw [mkRow]
    rw [toFixed_nonneg _ _ hg]

/-- C6 witness at the format-sample record. -/
theorem claim_C6_witness :
    (mkRow 0 recFormatSample).cost =
      "₹" ++ renderScaled ⌊recFormatSample.predicted_cost_inr * 10 ^ 2 + 1 / 2⌋ 2 :=
  (claim_C6_formatting 0 recFormatSample (by decide) (by decide) (by decide)
    (by decide)).2.1

/-- Membership in the literal selector list `[3, 5, 10]`. -/
theorem contains_topN_iff (n : ℤ) :
    ([3, 5, 10] : List ℤ).contains n = true ↔ (n = 3 ∨ n = 5 ∨ n = 10) := by
  simp [List.contains]

/-- Inversion: every submitted request comes from a non-empty trimmed
category and a parsed weight `> 0`, and carries exactly the payload of
app.js:63-69. -/
theorem runRecommendation_request_inv (inp : FormInputs) (p : Payload)
    (hp : runRecommendation inp = .request p) :
    jsTrim inp.categoryRaw ≠ "" ∧
    ∃ w, inp.weightParsed = some w ∧ 0 < w ∧
      p = { category := jsTrim inp.categoryRaw
            weight := w
            top_n := chooseTopN inp.topNParsed
            fragility_override := inp.fragility
            budget_limit :=
              if inp.budgetTrimmed = "" then none else some inp.budgetParsed } := by
  by_cases hcat : jsTrim inp.categoryRaw = ""
  · simp [runRecommendation, hcat] at hp
  · cases hw : inp.weightParsed with
    | none => simp [runRecommendation, hcat, hw] at hp
    | some w =>
      by_cases hw0 : w ≤ 0
      · simp [runRecommendation, hcat, hw, hw0] at hp
      · refine ⟨hcat, w, rfl, not_le.mp hw0, ?_⟩
        simp [runRecommendation, hcat, hw, hw0] at hp
        exact hp.symm

/-- C7: every submitted request has `top_n ∈ {3, 5, 10}`; the parsed selector
value is sent when it is 3, 5 or 10, and 5 is sent in its place otherwise
(including for an unparsable selector). -/
theorem claim_C7_topN_clamped (inp : FormInputs) (p : Payload)
    (hp : runRecommendation inp = .request p) :
    (p.top_n = 3 ∨ p.top_n = 5 ∨ p.top_n = 10) ∧
    ∀ n, inp.topNParsed = some n →
      ((n = 3 ∨ n = 5 ∨ n = 10) → p.top_n = n) ∧
      (¬(n = 3 ∨ n = 5 ∨ n = 10) → p.top_n = 5) := by
  obtain ⟨-, w, -, -, rfl⟩ := runRecommendation_request_inv inp p hp
  constructor
  · show chooseTopN inp.topNParsed = 3 ∨ chooseTopN inp.topNParsed = 5 ∨
      chooseTopN inp.topNParsed = 10
    cases hr : inp.topNParsed with
    | none => simp [chooseTopN]
    | some n =>
      simp only [chooseTopN]
      by_cases h3 : n = 3 ∨ n = 5 ∨ n = 10
      · rw [if_pos ((contains_topN_iff n).mpr h3)]
        tauto
      · rw [if_neg fun hc => h3 ((contains_topN_iff n).mp hc)]
        right; left; rfl
  · intro n hn
    constructor
    · intro h3
      show chooseTopN inp.topNParsed = n
      rw [hn]
      simp only [chooseTopN]
      rw [if_pos ((contains_topN_iff n).mpr h3)]
    · intro h3
      show chooseTopN inp.topNParsed = 5
      rw [hn]
      simp only [chooseTopN]
      rw [if_neg fun hc => h3 ((contains_topN_iff n).mp hc)]

/-- C7 witness: an out-of-range selector value 7 is replaced by 5. -/
theorem claim_C7_witness :
    (Payload.mk "c" 1 (chooseTopN (some 7)) "low" none).top_n = 5 :=
  ((claim_C7_topN_clamped
      { categoryRaw := "c", weightParsed := some 1, fragility := "low",
        budgetTrimmed := "", budgetParsed := none, currentMaterial := "",
        topNParsed := some 7 }
      (Payload.mk "c" 1 (chooseTopN (some 7)) "low" none) (by decide)).2 7 rfl).2
    (by decide)

/-- C8: a request is submitted only when the trimmed category is non-empty
and the parsed weight is a number strictly greater than 0; an empty category
or a NaN/non-positive weight instead shows the corresponding warning (the
function returns before the fetch, so the outcome is not a request). -/
theorem claim_C8_validation (inp : FormInputs) :
    (∀ p, runRecommendation inp = .request p →
      jsTrim inp.categoryRaw ≠ "" ∧
      ∃ w, inp.weightParsed = some w ∧ 0 < w ∧ p.weight = w) ∧
    (jsTrim inp.categoryRaw = "" →
      runRecommendation inp = .warn "Please select a product category.") ∧
    (jsTrim inp.categoryRaw ≠ "" → inp.weightParsed = none →
      runRecommendation inp = .warn "Please enter a valid product weight.") ∧
    (jsTrim inp.categoryRaw ≠ "" → ∀ w, inp.weightParsed = some w → w ≤ 0 →
      runRecommendation inp = .warn "Please enter a valid product weight.") := by
  refine ⟨?_, ?_, ?_, ?_⟩
  · intro p hp
    obtain ⟨hcat, w, hw, hw0, rfl⟩ := runRecommendation_request_inv inp p hp
    exact ⟨hcat, w, hw, hw0, rfl⟩
  · intro hcat
    simp [runRecommendation, hcat]
  · intro hcat hw
    simp [runRecommendation, hcat, hw]
  · intro hcat w hw hw0
    simp [runRecommendation, hcat, hw, hw0]

/-- C8 witness: a non-positive weight is rejected with a warning. -/
theorem claim_C8_witness :
    runRecommendation
        { categoryRaw := "boxes", weightParsed := some (-2), fragility := "low",
          budgetTrimmed := "", budgetParsed := none, currentMaterial := "",
          topNParsed := some 5 } =
      .warn "Please enter a valid product weight." :=
  (claim_C8_validation
      { categoryRaw := "boxes", weightParsed := some (-2), fragility := "low",
        budgetTrimmed := "", budgetParsed := none, currentMaterial := "",
        topNParsed := some 5 }).2.2.2 (by decide) (-2) rfl (by decide)

/-- C9 counterexample: with a successful recommendation and a comparison
response whose status is not "success", the flow shows no alert at all and
renders no savings panel — the comparison failure is not surfaced to the
user as the claim states. -/
theorem claim_C9_counterexample :
    (recommendFlow (.ok { status := "success", recommendations := some sampleRecs })
        "Plastic" (.ok { status := "error", comparison := sampleCmp })).alerts = [] ∧
    (recommendFlow (.ok { status := "success", recommendations := some sampleRecs })
        "Plastic" (.ok { status := "error", comparison := sampleCmp })).savings = none := by
  constructor <;> rfl

/-- C9 (amended): transport errors and non-success statuses from the
category, material and recommendation sources produce a user-visible alert,
and a transport error from the comparison source is surfaced too; but a
non-success status from the comparison source is silently ignored — the
flow's outcome is identical to running with no comparison at all (no
notice, no savings panel). -/
theorem claim_C9_upstream_failures (cm : String) (cmpRes : FetchResult CmpResponse) :
    (∀ msg, loadCategories (.transportError msg) =
      .warnAlert "Unable to load product categories.") ∧
    (∀ d : ListResponse, d.status ≠ "success" →
      loadCategories (.ok d) = .warnAlert "Unable to load product categories.") ∧
    (∀ msg, loadMaterials (.transportError msg) =
      .warnAlert "Unable to load materials list.") ∧
    (∀ d : ListResponse, d.status ≠ "success" →
      loadMaterials (.ok d) = .warnAlert "Unable to load materials list.") ∧
    (∀ msg, (recommendFlow (.transportError msg) cm cmpRes).alerts =
      [("error", if msg = "" then "Something went wrong." else msg)]) ∧
    (∀ d : RecResponse, d.status ≠ "success" →
      recommendFlow (.ok d) cm cmpRes =
        { alerts := [("error", "Recommendation failed")],
          results := none, savings := none }) ∧
    (∀ (d : RecResponse) msg, d.status = "success" → cm ≠ "" →
      recommendFlow (.ok d) cm (.transportError msg) =
        { recommendFlow (.ok d) "" (.transportError msg) with
          alerts := (recommendFlow (.ok d) "" (.transportError msg)).alerts ++
            [("error", if msg = "" then "Something went wrong." else msg)] }) ∧
    (∀ (d : RecResponse) (cmp : CmpResponse), d.status = "success" → cm ≠ "" →
      cmp.status ≠ "success" →
      recommendFlow (.ok d) cm (.ok cmp) = recommendFlow (.ok d) "" (.ok cmp)) := by
  refine ⟨fun msg => rfl, ?_, fun msg => rfl, ?_, fun msg => rfl, ?_, ?_, ?_⟩
  · intro d hd
    simp only [loadCategories]
    rw [if_pos hd]
  · intro d hd
    simp only [loadMaterials]
    rw [if_pos hd]
  · intro d hd
    simp only [recommendFlow]
    rw [if_pos hd]
  · intro d msg hd hcm
    cases hdisp : displayResults d.recommendations with
    | emptyWarn t m => simp [recommendFlow, hd, hcm, hdisp]
    | rendered m => simp [recommendFlow, hd, hcm, hdisp]
  · intro d cmp hd hcm hc
    cases hdisp : displayResults d.recommendations with
    | emptyWarn t m => simp [recommendFlow, hd, hcm, hdisp, hc]
    | rendered m => simp [recommendFlow, hd, hcm, hdisp, hc]

/-- C9 witness: a concrete failed comparison leaves the successful
recommendation flow untouched. -/
theorem claim_C9_witness :
    recommendFlow (.ok { status := "success", recommendations := some sampleRecs })
        "Plastic" (.ok { status := "error", comparison := sampleCmp }) =
      recommendFlow (.ok { status := "success", recommendations := some sampleRecs })
        "" (.ok { status := "error", comparison := sampleCmp }) :=
  (claim_C9_upstream_failures "Plastic"
      (.ok { status := "error", comparison := sampleCmp })).2.2.2.2.2.2.2
    { status := "success", recommendations := some sampleRecs }
    { status := "error", comparison := sampleCmp } rfl (by decide) (by decide)
